import Mathlib

/-!
Shallow embedding of the artifact-acquisition core of the
prometheus-agents installer (build.rs and src/ exporter modules),
together with theorems settling the specification claims.

Paths are modelled as plain strings; where the source joins paths with
the platform separator we use a slash, and where the source writes an
explicit separator we keep it verbatim.  Environment variables are a
function from names to optional values, and the file system is a
function from paths to an existence flag.  Network and file effects are
recorded as explicit event lists so that statements about what I/O is
performed are statements about the event list.
-/

namespace PromAgents

/-- Boolean check that the character list pat occurs as a contiguous
segment of the second list.  Used to model the Rust str::contains calls
of the source. -/
def listContainsSeg (pat : List Char) : List Char → Bool
  | [] => pat.isEmpty
  | c :: rest => pat.isPrefixOf (c :: rest) || listContainsSeg pat rest

/-- String form of listContainsSeg: does pat occur inside s, as in the
Rust str::contains used throughout the source. -/
def strContains (s pat : String) : Bool :=
  listContainsSeg pat.data s.data

/-- Path join, modelled with a slash separator. -/
def pathJoin (a b : String) : String := a ++ "/" ++ b

/-- Boolean success test on an Except value. -/
def exceptIsOk {ε α : Type} : Except ε α → Bool
  | .ok _ => true
  | .error _ => false

/-! ## Platform model of build.rs (TargetInfo, TargetOs, TargetArch) -/

/-- Target operating system classification of build.rs. -/
inductive TargetOs
  | linux
  | windows
  | other
deriving DecidableEq

/-- Target architecture classification of build.rs. -/
inductive TargetArch
  | x86_64
  | x86
  | aarch64
  | other
deriving DecidableEq

/-- TargetInfo of build.rs: the raw triple plus its classification. -/
structure TargetInfo where
  triple : String
  os : TargetOs
  arch : TargetArch
deriving DecidableEq

/-- TargetInfo::from_triple of build.rs lines 112 to 137: classify a
target triple by substring tests, in the order of the source. -/
def TargetInfo.from_triple (triple : String) : TargetInfo :=
  let os :=
    if strContains triple "windows" then TargetOs.windows
    else if strContains triple "linux" then TargetOs.linux
    else TargetOs.other
  let arch :=
    if strContains triple "x86_64" || strContains triple "amd64" then TargetArch.x86_64
    else if strContains triple "i686" || strContains triple "i586" || strContains triple "386" then TargetArch.x86
    else if strContains triple "aarch64" || strContains triple "arm64" then TargetArch.aarch64
    else TargetArch.other
  ⟨triple, os, arch⟩

/-- TargetInfo::is_linux of build.rs. -/
def TargetInfo.is_linux (t : TargetInfo) : Bool := t.os = TargetOs.linux

/-- TargetInfo::is_windows of build.rs. -/
def TargetInfo.is_windows (t : TargetInfo) : Bool := t.os = TargetOs.windows

/-! ## Artifact model of build.rs -/

/-- ArtifactKind of build.rs. -/
inductive ArtifactKind
  | processCpuAgent
  | nodeExporter
  | windowsExporter
deriving DecidableEq

/-- Artifact of build.rs: kind plus output name and the names of its
override environment variables. -/
structure Artifact where
  kind : ArtifactKind
  output_name : String
  env_file : String
  env_url : String
deriving DecidableEq

/-- The process-cpu-agent artifact literal of artifacts_for in build.rs. -/
def process_cpu_agent_artifact : Artifact :=
  { kind := ArtifactKind.processCpuAgent
    output_name := "process_cpu_agent.bin"
    env_file := "PROCESS_CPU_AGENT_BUILD_FILE"
    env_url := "PROCESS_CPU_AGENT_BUILD_URL" }

/-- The node-exporter artifact literal of artifacts_for in build.rs. -/
def node_exporter_artifact : Artifact :=
  { kind := ArtifactKind.nodeExporter
    output_name := "node_exporter.tar.gz"
    env_file := "NODE_EXPORTER_BUILD_FILE"
    env_url := "NODE_EXPORTER_BUILD_URL" }

/-- The windows-exporter artifact literal of artifacts_for in build.rs. -/
def windows_exporter_artifact : Artifact :=
  { kind := ArtifactKind.windowsExporter
    output_name := "windows_exporter.msi"
    env_file := "WINDOWS_EXPORTER_BUILD_FILE"
    env_url := "WINDOWS_EXPORTER_BUILD_URL" }

/-- artifacts_for of build.rs lines 148 to 175: process agent always,
node exporter on linux targets, windows exporter on windows targets. -/
def artifacts_for (t : TargetInfo) : List Artifact :=
  [process_cpu_agent_artifact]
    ++ (if t.is_linux then [node_exporter_artifact] else [])
    ++ (if t.is_windows then [windows_exporter_artifact] else [])

/-- Compiled-in default node-exporter version of build.rs and of
src/src/exporter/node_exporter.rs. -/
def NODE_EXPORTER_VERSION : String := "1.7.0"

/-- Compiled-in default windows-exporter version of build.rs and of
src/src/exporter/windows_exporter.rs. -/
def WINDOWS_EXPORTER_VERSION : String := "0.25.1"

/-- Architecture token of the three default_..._url functions of
build.rs: amd64, 386, arm64, with unrecognized mapped to amd64. -/
def buildArchTok : TargetArch → String
  | TargetArch.x86_64 => "amd64"
  | TargetArch.x86 => "386"
  | TargetArch.aarch64 => "arm64"
  | TargetArch.other => "amd64"

/-- default_process_cpu_agent_url of build.rs lines 207 to 230. -/
def default_process_cpu_agent_url (t : TargetInfo) : Option String :=
  match t.os with
  | TargetOs.windows =>
      some ("https://github.com/your-org/process-cpu-agent/releases/latest/download/process-cpu-agent-windows-"
        ++ buildArchTok t.arch ++ ".exe")
  | TargetOs.linux =>
      some ("https://github.com/your-org/process-cpu-agent/releases/latest/download/process-cpu-agent-linux-"
        ++ buildArchTok t.arch)
  | TargetOs.other => none

/-- default_node_exporter_url of build.rs lines 232 to 248. -/
def default_node_exporter_url (t : TargetInfo) : Option String :=
  if t.is_linux then
    some ("https://github.com/prometheus/node_exporter/releases/download/v"
      ++ NODE_EXPORTER_VERSION ++ "/node_exporter-" ++ NODE_EXPORTER_VERSION
      ++ ".linux-" ++ buildArchTok t.arch ++ ".tar.gz")
  else none

/-- default_windows_exporter_url of build.rs lines 250 to 264: amd64 for
the x86_64 architecture and 386 for every other one. -/
def default_windows_exporter_url (t : TargetInfo) : Option String :=
  if t.is_windows then
    some ("https://github.com/prometheus-community/windows_exporter/releases/download/v"
      ++ WINDOWS_EXPORTER_VERSION ++ "/windows_exporter-" ++ WINDOWS_EXPORTER_VERSION
      ++ "-" ++ (if t.arch = TargetArch.x86_64 then "amd64" else "386") ++ ".msi")
  else none

/-- Artifact::default_url of build.rs lines 83 to 90: dispatch to the
kind-specific url and turn a missing url into an error. -/
def Artifact.default_url (a : Artifact) (t : TargetInfo) : Except String String :=
  let url :=
    match a.kind with
    | ArtifactKind.processCpuAgent => default_process_cpu_agent_url t
    | ArtifactKind.nodeExporter => default_node_exporter_url t
    | ArtifactKind.windowsExporter => default_windows_exporter_url t
  match url with
  | some u => Except.ok u
  | none => Except.error ("No default URL for target " ++ t.triple)

/-- Artifact::bundle_path of build.rs lines 70 to 81: only the process
cpu agent has a bundled binary, at lib/process-cpu-agent in the manifest
directory (with an exe suffix on a windows build host), and only when
that file exists. -/
def Artifact.bundle_path (a : Artifact) (fs : String → Bool)
    (manifestDir : String) (winHost : Bool) : Option String :=
  if a.kind = ArtifactKind.processCpuAgent then
    let binary :=
      if winHost then pathJoin manifestDir "lib/process-cpu-agent.exe"
      else pathJoin manifestDir "lib/process-cpu-agent"
    if fs binary then some binary else none
  else none

/-- The single acquisition action performed by Artifact::ensure. -/
inductive EnsureAction
  | skip
  | copyFrom (src : String) (dest : String)
  | downloadTo (url : String) (dest : String)
deriving DecidableEq

/-- Artifact::ensure of build.rs lines 44 to 68, as the action it
performs: return early when the destination exists, else first match
among override file variable, bundled binary, override url variable and
computed default url. -/
def Artifact.ensure (a : Artifact) (t : TargetInfo) (env : String → Option String)
    (fs : String → Bool) (outDir manifestDir : String) (winHost : Bool) :
    Except String EnsureAction :=
  let dest := pathJoin outDir a.output_name
  if fs dest then Except.ok EnsureAction.skip
  else
    match env a.env_file with
    | some p => Except.ok (EnsureAction.copyFrom p dest)
    | none =>
      match a.bundle_path fs manifestDir winHost with
      | some b => Except.ok (EnsureAction.copyFrom b dest)
      | none =>
        match env a.env_url with
        | some u => Except.ok (EnsureAction.downloadTo u dest)
        | none =>
          match a.default_url t with
          | Except.ok u => Except.ok (EnsureAction.downloadTo u dest)
          | Except.error e => Except.error e

/-! ## Runtime downloader model (src/src/exporter/downloader.rs) -/

/-- Outcome of the single blocking HTTP GET a download performs: the
send itself can fail (connection failure or timeout), or a response
arrives with a status code and a body whose read can itself fail
(modelled as none). -/
inductive HttpOutcome
  | sendError
  | response (status : Nat) (body : Option (List Nat))
deriving DecidableEq

/-- File system and network events a download performs, in order. -/
inductive FsEvent
  | createDirAll (path : String)
  | httpGet (url : String)
  | fileWrite (path : String) (content : List Nat)
  | chmod755 (path : String)
deriving DecidableEq

/-- Result of a download together with the events it performed. -/
structure DlOutcome where
  events : List FsEvent
  result : Except String (List Nat)

/-- Parent directory of a slash-separated path, none when the path has
no slash, modelling Path::parent. -/
def parentDir (p : String) : Option String :=
  match (p.data.reverse.dropWhile (fun c => c ≠ '/')) with
  | [] => none
  | _ :: rest => some (String.mk rest.reverse)

/-- StatusCode::is_success of the http client: a 2xx status. -/
def isSuccessStatus (s : Nat) : Bool := 200 ≤ s && 299 ≥ s

/-- download_file of src/src/exporter/downloader.rs lines 7 to 35:
create the parent directories, issue one GET, fail on a send error,
fail on a non-2xx status, fail if the body cannot be read, and only
then write the body to the destination and mark it executable.  The
file system argument is threaded through untouched: the source never
consults the existence of the destination. -/
def download_file (url dest : String) (_fs : String → Bool) (h : HttpOutcome) :
    DlOutcome :=
  let pre :=
    (match parentDir dest with
     | some p => [FsEvent.createDirAll p]
     | none => []) ++ [FsEvent.httpGet url]
  match h with
  | HttpOutcome.sendError => ⟨pre, Except.error "send"⟩
  | HttpOutcome.response status body =>
    if isSuccessStatus status then
      match body with
      | none => ⟨pre, Except.error "body"⟩
      | some bytes =>
          ⟨pre ++ [FsEvent.fileWrite dest bytes, FsEvent.chmod755 dest],
           Except.ok bytes⟩
    else ⟨pre, Except.error ("Failed to download: HTTP " ++ toString status)⟩

/-- Does this event write the given destination path. -/
def writesTo (dest : String) : FsEvent → Bool
  | FsEvent.fileWrite p _ => p = dest
  | _ => false

/-! ## Runtime exporter setup models -/

/-- generate_download_url of src/src/exporter/node_exporter.rs lines
111 to 115. -/
def generate_download_url (version arch : String) : String :=
  "https://github.com/prometheus/node_exporter/releases/download/v"
    ++ version ++ "/node_exporter-" ++ version ++ ".linux-" ++ arch ++ ".tar.gz"

/-- is_64bit of src/src/os_detector.rs lines 24 to 26. -/
def is_64bit (arch : String) : Bool := arch == "x86_64" || arch == "aarch64"

/-- get_node_exporter_arch of src/src/exporter/node_exporter.rs lines
118 to 132, as a function of the ambient architecture string. -/
def get_node_exporter_arch (arch : String) : String :=
  if arch = "x86_64" then "amd64"
  else if arch = "aarch64" then "arm64"
  else if arch = "arm" ∨ arch = "armv7l" then "armv7"
  else if arch = "i686" ∨ arch = "i586" ∨ arch = "x86" then "386"
  else if is_64bit arch then "amd64" else "386"

/-- The source an acquisition reads its bytes from. -/
inductive AcqSource
  | embeddedBytes
  | fromUrl (url : String)
deriving DecidableEq

/-- Source choice of setup_node_exporter, src/src/exporter/
node_exporter.rs lines 147 to 157: the embedded archive is used exactly
when the requested version equals the compiled-in default and an
embedded payload exists; otherwise the computed default url is
downloaded. -/
def setup_node_exporter_source (version : String)
    (embedded : Option (List Nat)) (arch : String) : AcqSource :=
  if version = NODE_EXPORTER_VERSION then
    match embedded with
    | some _ => AcqSource.embeddedBytes
    | none => AcqSource.fromUrl (generate_download_url version arch)
  else AcqSource.fromUrl (generate_download_url version arch)

/-- WindowsExporterSetup::download_url of src/src/exporter/
windows_exporter.rs lines 29 to 35 (the top-level module has the same
body): amd64 for the x86_64 architecture string, 386 for every other. -/
def windows_exporter_download_url (version arch : String) : String :=
  let arch_suffix := if arch = "x86_64" then "amd64" else "386"
  "https://github.com/prometheus-community/windows_exporter/releases/download/v"
    ++ version ++ "/windows_exporter-" ++ version ++ "-" ++ arch_suffix ++ ".msi"

/-- Source choice of WindowsExporterSetup::download_installer,
src/src/exporter/windows_exporter.rs lines 55 to 75: embedded installer
exactly when the version equals the compiled-in default and an embedded
payload exists, else the computed default url. -/
def download_installer_source (version : String)
    (embedded : Option (List Nat)) (arch : String) : AcqSource :=
  if version = WINDOWS_EXPORTER_VERSION then
    match embedded with
    | some _ => AcqSource.embeddedBytes
    | none => AcqSource.fromUrl (windows_exporter_download_url version arch)
  else AcqSource.fromUrl (windows_exporter_download_url version arch)

/-- Result of the legacy installer download together with its events. -/
structure InstOutcome where
  events : List FsEvent
  result : Except String Unit

/-- WindowsExporterSetup::download_installer of the legacy top-level
module src/src/windows_exporter.rs lines 47 to 63: issue the GET, read
the body, and write it to windows_exporter.msi under the install path.
The source performs no status check at all, so any response whose body
can be read is written and reported as success. -/
def legacy_download_installer (installPath arch version : String)
    (h : HttpOutcome) : InstOutcome :=
  let url := windows_exporter_download_url version arch
  match h with
  | HttpOutcome.sendError => ⟨[FsEvent.httpGet url], Except.error "send"⟩
  | HttpOutcome.response _ body =>
    match body with
    | none => ⟨[FsEvent.httpGet url], Except.error "body"⟩
    | some bytes =>
        ⟨[FsEvent.httpGet url,
          FsEvent.fileWrite (installPath ++ "\\windows_exporter.msi") bytes],
         Except.ok ()⟩

/-! ## Process agent config (src/src/exporter/process_exporter.rs) -/

/-- PROCESS_CPU_AGENT_PORT of src/src/exporter/process_exporter.rs. -/
def PROCESS_CPU_AGENT_PORT : Nat := 31416

/-- create_config_content of src/src/exporter/process_exporter.rs lines
202 to 224, the exact generated configuration text. -/
def create_config_content (port : Nat) : String :=
  "# Process CPU Agent Configuration\n# This agent collects CPU usage metrics for individual processes\n\n# Listening port\nport: "
  ++ toString port ++
  "\n\n# Process filters (optional)\n# Only monitor processes matching these patterns\n# process_filters:\n#   - \"java\"\n#   - \"python\"\n#   - \"node\"\n\n# Collection interval in seconds\ninterval: 15\n\n# Maximum number of processes to track\nmax_processes: 100\n"

/-! ## Zip extraction (src/src/exporter/downloader.rs extract_zip) -/

/-- One entry of a zip archive: its stored name and its content. -/
structure ZipEntry where
  name : String
  data : List Nat
deriving DecidableEq

/-- Actions extract_zip performs per entry. -/
inductive ZipAction
  | makeDir (path : String)
  | ensureParentDir (path : String)
  | writeEntry (path : String) (content : List Nat)
  | chmodExec (path : String)
deriving DecidableEq

/-- Is this action the 0o755 permission-setting step. -/
def isChmod : ZipAction → Bool
  | ZipAction.chmodExec _ => true
  | _ => false

/-- Per-entry body of the extract_zip loop, src/src/exporter/
downloader.rs lines 98 to 121: names ending in a slash become
directories; file entries get their parent ensured and their bytes
written, and, when the name contains exporter or agent, the 0o755
executable bit via set_executable_permissions. -/
def entry_actions (extractPath : String) (e : ZipEntry) : List ZipAction :=
  let outpath := pathJoin extractPath e.name
  if e.name.endsWith "/" then [ZipAction.makeDir outpath]
  else
    [ZipAction.ensureParentDir outpath, ZipAction.writeEntry outpath e.data]
      ++ (if strContains e.name "exporter" || strContains e.name "agent" then
            [ZipAction.chmodExec outpath]
          else [])

/-- The extract_zip loop over the archive entries, in index order. -/
def entries_actions (extractPath : String) : List ZipEntry → List ZipAction
  | [] => []
  | e :: rest => entry_actions extractPath e ++ entries_actions extractPath rest

/-- extract_zip of src/src/exporter/downloader.rs lines 85 to 124:
create the extraction directory, then process each entry in order. -/
def extract_zip (extractPath : String) (entries : List ZipEntry) : List ZipAction :=
  ZipAction.makeDir extractPath :: entries_actions extractPath entries

/-! ## OS detection and main flow (src/src/os_detector.rs, src/src/main.rs) -/

/-- OsType of src/src/os_detector.rs. -/
inductive OsType
  | linux
  | windows
  | macOs
  | unknown
deriving DecidableEq

/-- detect_os of src/src/os_detector.rs lines 11 to 18, as a function
of the ambient operating system string. -/
def detect_os (osStr : String) : OsType :=
  if osStr = "linux" then OsType.linux
  else if osStr = "windows" then OsType.windows
  else if osStr = "macos" then OsType.macOs
  else OsType.unknown

/-- The acquisition and registration steps main can perform. -/
inductive SetupStep
  | nodeExporterSetup
  | windowsExporterSetup
  | windowsConfigWrite
  | processAgentSetup
  | processConfigWrite
deriving DecidableEq

/-- Success flags of the collaborator setup calls main makes. -/
structure CollabResults where
  nodeOk : Bool
  windowsOk : Bool
  processOk : Bool
  processConfigOk : Bool

/-- Steps attempted by main, src/src/main.rs lines 36 to 85: per
detected OS, the exporter setups are attempted in order, the process
agent config is written only when its setup succeeded, and for an
unknown OS nothing is attempted at all. -/
def main_steps (os : OsType) (c : CollabResults) : List SetupStep :=
  match os with
  | OsType.linux =>
      [SetupStep.nodeExporterSetup, SetupStep.processAgentSetup]
        ++ (if c.processOk then [SetupStep.processConfigWrite] else [])
  | OsType.windows =>
      [SetupStep.windowsExporterSetup, SetupStep.windowsConfigWrite,
       SetupStep.processAgentSetup]
        ++ (if c.processOk then [SetupStep.processConfigWrite] else [])
  | OsType.macOs =>
      [SetupStep.nodeExporterSetup, SetupStep.processAgentSetup]
        ++ (if c.processOk then [SetupStep.processConfigWrite] else [])
  | OsType.unknown => []

/-- Exit code of main, src/src/main.rs lines 84 to 127: the unknown OS
arm yields the unsupported-OS error and exit(1); otherwise the overall
result is the process-agent setup chained with its config write, with 0
on success and exit(1) on failure. -/
def main_exit_code (os : OsType) (c : CollabResults) : Nat :=
  match os with
  | OsType.unknown => 1
  | _ => if c.processOk && c.processConfigOk then 0 else 1

/-! ## Theorems settling the claims -/

set_option maxRecDepth 20000

/-- C1: for every artifact kind, when the override local file path
variable is set to a path that exists and the destination has not been
produced yet, Artifact::ensure copies from that path and performs no
download, taking priority over the bundled payload, the override url
variable and the computed default url. -/
theorem c1 (a : Artifact) (t : TargetInfo) (env : String → Option String)
    (fs : String → Bool) (outDir manifestDir p : String) (winHost : Bool)
    (hdest : fs (pathJoin outDir a.output_name) = false)
    (hfile : env a.env_file = some p)
    (_hexists : fs p = true) :
    Artifact.ensure a t env fs outDir manifestDir winHost
      = Except.ok (EnsureAction.copyFrom p (pathJoin outDir a.output_name)) ∧
    ∀ u d, Artifact.ensure a t env fs outDir manifestDir winHost
      ≠ Except.ok (EnsureAction.downloadTo u d) := by
  have h1 : Artifact.ensure a t env fs outDir manifestDir winHost
      = Except.ok (EnsureAction.copyFrom p (pathJoin outDir a.output_name)) := by
    unfold Artifact.ensure
    simp [hdest, hfile]
  refine ⟨h1, ?_⟩
  intro u d
  rw [h1]
  simp

/-- Witness for C1 at a concrete build state: the override variable of
the process-cpu-agent artifact is set to an existing path and the
destination is absent, so ensure copies from the override path. -/
theorem c1_witness :
    ((fun q => q == "/tmp/agent-bin") : String → Bool)
        (pathJoin "/out" process_cpu_agent_artifact.output_name) = false ∧
    ((fun v => if v = "PROCESS_CPU_AGENT_BUILD_FILE" then some "/tmp/agent-bin" else none) :
        String → Option String) process_cpu_agent_artifact.env_file = some "/tmp/agent-bin" ∧
    ((fun q => q == "/tmp/agent-bin") : String → Bool) "/tmp/agent-bin" = true ∧
    (Artifact.ensure process_cpu_agent_artifact
        (TargetInfo.from_triple "x86_64-unknown-linux-gnu")
        (fun v => if v = "PROCESS_CPU_AGENT_BUILD_FILE" then some "/tmp/agent-bin" else none)
        (fun q => q == "/tmp/agent-bin") "/out" "/repo" false
      = Except.ok (EnsureAction.copyFrom "/tmp/agent-bin"
          (pathJoin "/out" process_cpu_agent_artifact.output_name)) ∧
     ∀ u d, Artifact.ensure process_cpu_agent_artifact
        (TargetInfo.from_triple "x86_64-unknown-linux-gnu")
        (fun v => if v = "PROCESS_CPU_AGENT_BUILD_FILE" then some "/tmp/agent-bin" else none)
        (fun q => q == "/tmp/agent-bin") "/out" "/repo" false
      ≠ Except.ok (EnsureAction.downloadTo u d)) :=
  ⟨by decide, by decide, by decide,
   c1 _ _ _ _ _ _ _ _ (by decide) (by decide) (by decide)⟩

/-- C2: with an embedded payload present, requesting the compiled-in
default version selects the embedded bytes for both the node exporter
and the windows-exporter installer; requesting any other version never
selects the embedded payload and uses the computed default url. -/
theorem c2 (version arch : String) (payload : List Nat) :
    (version = NODE_EXPORTER_VERSION →
      setup_node_exporter_source version (some payload) arch = AcqSource.embeddedBytes) ∧
    (version ≠ NODE_EXPORTER_VERSION →
      ∀ e, setup_node_exporter_source version e arch
          = AcqSource.fromUrl (generate_download_url version arch) ∧
        setup_node_exporter_source version e arch ≠ AcqSource.embeddedBytes) ∧
    (version = WINDOWS_EXPORTER_VERSION →
      download_installer_source version (some payload) arch = AcqSource.embeddedBytes) ∧
    (version ≠ WINDOWS_EXPORTER_VERSION →
      ∀ e, download_installer_source version e arch
          = AcqSource.fromUrl (windows_exporter_download_url version arch) ∧
        download_installer_source version e arch ≠ AcqSource.embeddedBytes) := by
  refine ⟨?_, ?_, ?_, ?_⟩
  · intro h
    simp [setup_node_exporter_source, h]
  · intro h e
    constructor <;> simp [setup_node_exporter_source, h]
  · intro h
    simp [download_installer_source, h]
  · intro h e
    constructor <;> simp [download_installer_source, h]

/-- Witness for C2 at concrete versions: the default versions select
the embedded payload and a different version selects the default url. -/
theorem c2_witness :
    setup_node_exporter_source "1.7.0" (some [7]) "amd64" = AcqSource.embeddedBytes ∧
    (setup_node_exporter_source "9.9.9" (some [7]) "amd64"
        = AcqSource.fromUrl (generate_download_url "9.9.9" "amd64") ∧
      setup_node_exporter_source "9.9.9" (some [7]) "amd64" ≠ AcqSource.embeddedBytes) ∧
    download_installer_source "0.25.1" (some [7]) "x86_64" = AcqSource.embeddedBytes ∧
    (download_installer_source "9.9.9" (some [7]) "x86_64"
        = AcqSource.fromUrl (windows_exporter_download_url "9.9.9" "x86_64") ∧
      download_installer_source "9.9.9" (some [7]) "x86_64" ≠ AcqSource.embeddedBytes) :=
  ⟨(c2 "1.7.0" "amd64" [7]).1 rfl,
   (c2 "9.9.9" "amd64" [7]).2.1 (by decide) (some [7]),
   (c2 "0.25.1" "x86_64" [7]).2.2.1 rfl,
   (c2 "9.9.9" "x86_64" [7]).2.2.2 (by decide) (some [7])⟩

/-- C3 counterexample: the runtime downloader used for the process
agent performs its HTTP GET and overwrites the destination even in a
file system state in which the destination path already exists, so
acquisition as a whole is not idempotent with respect to an existing
destination. -/
theorem c3_counterexample :
    ((fun _ => true) : String → Bool)
        "/opt/prometheus/process-cpu-agent/process-cpu-agent" = true ∧
    FsEvent.httpGet "https://example.com/agent"
      ∈ (download_file "https://example.com/agent"
          "/opt/prometheus/process-cpu-agent/process-cpu-agent" (fun _ => true)
          (HttpOutcome.response 200 (some [55]))).events ∧
    FsEvent.fileWrite "/opt/prometheus/process-cpu-agent/process-cpu-agent" [55]
      ∈ (download_file "https://example.com/agent"
          "/opt/prometheus/process-cpu-agent/process-cpu-agent" (fun _ => true)
          (HttpOutcome.response 200 (some [55]))).events := by
  decide

/-- C3 amended: build-time acquisition is idempotent — when the
destination already exists, Artifact::ensure returns success at once
and performs no copy or download — while the runtime download_file
issues its HTTP GET unconditionally, whatever the file system state. -/
theorem c3_theorem :
    (∀ (a : Artifact) (t : TargetInfo) (env : String → Option String)
        (fs : String → Bool) (outDir manifestDir : String) (winHost : Bool),
      fs (pathJoin outDir a.output_name) = true →
      Artifact.ensure a t env fs outDir manifestDir winHost
        = Except.ok EnsureAction.skip) ∧
    (∀ (url dest : String) (fs : String → Bool) (h : HttpOutcome),
      FsEvent.httpGet url ∈ (download_file url dest fs h).events) := by
  constructor
  · intro a t env fs outDir manifestDir winHost hdest
    unfold Artifact.ensure
    simp [hdest]
  · intro url dest fs h
    cases h with
    | sendError => cases hp : parentDir dest <;> simp [download_file, hp]
    | response status body =>
      cases hp : parentDir dest <;> cases body <;>
        by_cases hs : isSuccessStatus status = true <;>
          simp [download_file, hp, hs]

/-- Witness for C3 amended: with every path existing, ensure skips, and
a concrete download still issues its GET. -/
theorem c3_witness :
    ((fun _ => true) : String → Bool)
        (pathJoin "/out" process_cpu_agent_artifact.output_name) = true ∧
    Artifact.ensure process_cpu_agent_artifact
        (TargetInfo.from_triple "x86_64-unknown-linux-gnu") (fun _ => none)
        (fun _ => true) "/out" "/repo" false = Except.ok EnsureAction.skip ∧
    FsEvent.httpGet "https://example.com/a"
      ∈ (download_file "https://example.com/a" "/d/f" (fun _ => true)
          HttpOutcome.sendError).events :=
  ⟨rfl, c3_theorem.1 _ _ _ _ _ _ _ rfl,
   c3_theorem.2 "https://example.com/a" "/d/f" (fun _ => true) HttpOutcome.sendError⟩

/-- C4: evaluation at the failing input.  The legacy windows-exporter
installer download receives an HTTP 404 response, writes the response
body to the installer destination anyway and reports success, while
download_file of src/src/exporter/downloader.rs treats the same
response as a terminal failure and writes nothing. -/
theorem c4_bug :
    exceptIsOk (legacy_download_installer "C:\\Program Files\\prometheus" "x86_64"
        "0.25.1" (HttpOutcome.response 404 (some [52, 48, 52]))).result = true ∧
    FsEvent.fileWrite "C:\\Program Files\\prometheus\\windows_exporter.msi" [52, 48, 52]
      ∈ (legacy_download_installer "C:\\Program Files\\prometheus" "x86_64" "0.25.1"
          (HttpOutcome.response 404 (some [52, 48, 52]))).events ∧
    isSuccessStatus 404 = false ∧
    exceptIsOk (download_file (windows_exporter_download_url "0.25.1" "x86_64")
        "/tmp/windows_exporter.msi" (fun _ => false)
        (HttpOutcome.response 404 (some [52, 48, 52]))).result = false ∧
    (download_file (windows_exporter_download_url "0.25.1" "x86_64")
        "/tmp/windows_exporter.msi" (fun _ => false)
        (HttpOutcome.response 404 (some [52, 48, 52]))).events.filter
      (writesTo "/tmp/windows_exporter.msi") = [] := by
  decide

/-- C5: a remote acquisition through download_file that fails before
the response body is obtained — the send fails, or the body read
fails — returns an error and performs no write to the destination
path. -/
theorem c5 (url dest : String) (fs : String → Bool) :
    (exceptIsOk (download_file url dest fs HttpOutcome.sendError).result = false ∧
      (download_file url dest fs HttpOutcome.sendError).events.filter
        (writesTo dest) = []) ∧
    ∀ status : Nat,
      exceptIsOk (download_file url dest fs
          (HttpOutcome.response status none)).result = false ∧
      (download_file url dest fs (HttpOutcome.response status none)).events.filter
        (writesTo dest) = [] := by
  constructor
  · cases hp : parentDir dest <;>
      simp [download_file, hp, exceptIsOk, writesTo]
  · intro status
    by_cases hs : isSuccessStatus status = true <;>
      cases hp : parentDir dest <;>
        simp [download_file, hp, hs, exceptIsOk, writesTo]

/-- C6 counterexample: the runtime architecture mapping sends the
unrecognized architecture powerpc64 to 386, not amd64, so the
node-exporter url built from it contains linux-386 and not
linux-amd64. -/
theorem c6_counterexample :
    get_node_exporter_arch "powerpc64" = "386" ∧
    strContains (generate_download_url NODE_EXPORTER_VERSION
        (get_node_exporter_arch "powerpc64")) "linux-amd64" = false ∧
    strContains (generate_download_url NODE_EXPORTER_VERSION
        (get_node_exporter_arch "powerpc64")) "linux-386" = true := by
  decide

/-- The architecture names the runtime mapping recognizes. -/
def recognizedArches : List String :=
  ["x86_64", "aarch64", "arm", "armv7l", "i686", "i586", "x86"]

/-- C6 amended: the build-time mapping sends X86_64 to amd64, X86 to
386, Aarch64 to arm64 and unrecognized architectures to amd64, and the
build-time url contains linux-amd64 for X86_64 and linux-386 for X86;
the runtime mapping agrees on the recognized names (with arm and armv7l
mapped to armv7) but sends every unrecognized architecture to 386. -/
theorem c6_theorem :
    (buildArchTok TargetArch.x86_64 = "amd64" ∧ buildArchTok TargetArch.x86 = "386" ∧
      buildArchTok TargetArch.aarch64 = "arm64" ∧ buildArchTok TargetArch.other = "amd64") ∧
    (∀ s : String,
      strContains ((default_node_exporter_url
          ⟨s, TargetOs.linux, TargetArch.x86_64⟩).getD "") "linux-amd64" = true ∧
      strContains ((default_node_exporter_url
          ⟨s, TargetOs.linux, TargetArch.x86⟩).getD "") "linux-386" = true) ∧
    (get_node_exporter_arch "x86_64" = "amd64" ∧ get_node_exporter_arch "x86" = "386" ∧
      get_node_exporter_arch "aarch64" = "arm64" ∧ get_node_exporter_arch "arm" = "armv7") ∧
    (∀ arch : String, arch ∉ recognizedArches → get_node_exporter_arch arch = "386") := by
  refine ⟨by decide, fun s => ⟨rfl, rfl⟩, by decide, ?_⟩
  intro arch h
  simp only [recognizedArches, List.mem_cons, List.not_mem_nil, or_false, not_or] at h
  obtain ⟨h1, h2, h3, h4, h5, h6, h7⟩ := h
  have h64 : is_64bit arch = false := by
    simp [is_64bit, h1, h2]
  unfold get_node_exporter_arch
  rw [if_neg h1, if_neg h2, if_neg (not_or.mpr ⟨h3, h4⟩),
    if_neg (by simp [h5, h6, h7]), h64]
  simp

/-- Witness for C6 amended at a concrete unrecognized architecture. -/
theorem c6_witness :
    "powerpc" ∉ recognizedArches ∧ get_node_exporter_arch "powerpc" = "386" :=
  ⟨by decide, c6_theorem.2.2.2 "powerpc" (by decide)⟩

/-- C7: the windows-exporter default url contains amd64 exactly for the
x86_64 architecture and 386 for every other architecture, both in the
build-time computation and in the runtime one. -/
theorem c7 :
    (∀ s : String,
      strContains ((default_windows_exporter_url
          ⟨s, TargetOs.windows, TargetArch.x86_64⟩).getD "") "amd64" = true) ∧
    (∀ (s : String) (arch : TargetArch), arch ≠ TargetArch.x86_64 →
      strContains ((default_windows_exporter_url
          ⟨s, TargetOs.windows, arch⟩).getD "") "386" = true) ∧
    strContains (windows_exporter_download_url WINDOWS_EXPORTER_VERSION "x86_64")
      "amd64" = true ∧
    (∀ arch : String, arch ≠ "x86_64" →
      strContains (windows_exporter_download_url WINDOWS_EXPORTER_VERSION arch)
        "386" = true) := by
  refine ⟨fun s => rfl, ?_, by decide, ?_⟩
  · intro s arch h
    cases arch
    case x86_64 => exact absurd rfl h
    all_goals rfl
  · intro arch h
    simp only [windows_exporter_download_url, if_neg h]
    decide

/-- Witness for C7 at concrete non-x86_64 architectures. -/
theorem c7_witness :
    strContains ((default_windows_exporter_url
        ⟨"i686-pc-windows-msvc", TargetOs.windows, TargetArch.x86⟩).getD "")
      "386" = true ∧
    strContains (windows_exporter_download_url WINDOWS_EXPORTER_VERSION "aarch64")
      "386" = true :=
  ⟨c7.2.1 "i686-pc-windows-msvc" TargetArch.x86 (by decide),
   c7.2.2.2 "aarch64" (by decide)⟩

/-- C8 counterexample: the generated process-agent configuration at the
documented port contains neither the TOML assignment port = 31416 nor a
server or process section header. -/
theorem c8_counterexample :
    strContains (create_config_content PROCESS_CPU_AGENT_PORT) "port = 31416" = false ∧
    strContains (create_config_content PROCESS_CPU_AGENT_PORT) "[server]" = false ∧
    strContains (create_config_content PROCESS_CPU_AGENT_PORT) "[process]" = false := by
  decide

/-- C8 amended: the generated configuration is YAML-style and contains
port: 31416 at the documented port, together with interval: 15 and
max_processes: 100. -/
theorem c8_theorem :
    PROCESS_CPU_AGENT_PORT = 31416 ∧
    strContains (create_config_content PROCESS_CPU_AGENT_PORT) "port: 31416" = true ∧
    strContains (create_config_content PROCESS_CPU_AGENT_PORT) "interval: 15" = true ∧
    strContains (create_config_content PROCESS_CPU_AGENT_PORT) "max_processes: 100" = true := by
  decide

/-- Per-entry chmod characterisation of the extract_zip loop body. -/
theorem entry_actions_filter_chmod (p : String) (e : ZipEntry) :
    (entry_actions p e).filter isChmod =
      if !(e.name.endsWith "/")
          && (strContains e.name "exporter" || strContains e.name "agent")
      then [ZipAction.chmodExec (pathJoin p e.name)] else [] := by
  unfold entry_actions
  cases h1 : e.name.endsWith "/" <;>
    simp only [h1, Bool.not_true, Bool.not_false, Bool.false_and, Bool.true_and,
      if_true, if_false, List.filter] <;>
    cases h2 : strContains e.name "exporter" || strContains e.name "agent" <;>
      simp [isChmod, h2]

/-- C9: extracting a zip archive sets the 0o755 executable bit exactly
on the file entries whose name contains exporter or agent: the chmod
actions of extract_zip are precisely those of the qualifying file
entries, and no other entry receives one. -/
theorem c9 (p : String) (es : List ZipEntry) :
    (extract_zip p es).filter isChmod =
      (es.filter (fun e => !(e.name.endsWith "/")
          && (strContains e.name "exporter" || strContains e.name "agent"))).map
        (fun e => ZipAction.chmodExec (pathJoin p e.name)) := by
  have main : ∀ l : List ZipEntry,
      (entries_actions p l).filter isChmod =
        (l.filter (fun e => !(e.name.endsWith "/")
            && (strContains e.name "exporter" || strContains e.name "agent"))).map
          (fun e => ZipAction.chmodExec (pathJoin p e.name)) := by
    intro l
    induction l with
    | nil => rfl
    | cons e rest ih =>
      simp only [entries_actions, List.filter_append, ih,
        entry_actions_filter_chmod, List.filter_cons]
      cases hc : (!(e.name.endsWith "/")
          && (strContains e.name "exporter" || strContains e.name "agent")) <;>
        simp [hc]
  simp only [extract_zip, List.filter_cons, isChmod]
  simpa using main es

/-- C10: when OS detection yields Unknown, main attempts no setup step
at all — no acquisition and no service registration — and exits with
code 1. -/
theorem c10 (osStr : String) (c : CollabResults)
    (h : detect_os osStr = OsType.unknown) :
    main_steps (detect_os osStr) c = [] ∧
    main_exit_code (detect_os osStr) c = 1 := by
  rw [h]
  exact ⟨rfl, rfl⟩

/-- Witness for C10 at a concrete unrecognized operating system. -/
theorem c10_witness :
    detect_os "freebsd" = OsType.unknown ∧
    main_steps (detect_os "freebsd") ⟨true, true, true, true⟩ = [] ∧
    main_exit_code (detect_os "freebsd") ⟨true, true, true, true⟩ = 1 :=
  ⟨by decide, c10 "freebsd" ⟨true, true, true, true⟩ (by decide)⟩

end PromAgents
